import Mathlib

/-!
Verification of the client-side control flow of the Image-Change
single-page application (src/App.tsx).

The embedding models the React component state as an explicit record and
each user-triggered workflow (initial load, upload, generate) as a pure
function of the current state together with the outcome of its single
asynchronous step.  Each workflow is split into the synchronous prefix
executed before the first `await` (`...Pre`) and the continuation executed
once the asynchronous step resolves (`...Commit`); the workflow function is
their composition, mirroring the straight-line control flow of the source.
-/

namespace ImageChange

/-- `{ dataUrl, mimeType }` pair as produced by `fileToBase64` /
`urlToDataUrl` in App.tsx. -/
structure ImageAsset where
  dataUrl : String
  mimeType : String
deriving Repr, DecidableEq

/-- A JavaScript thrown value as discriminated by
`e instanceof Error ? e.message : ...` in the catch block of
`handleGenerate`: either an `Error` carrying a message, or any other
thrown value. -/
inductive JsThrown where
  | jsError (message : String)
  | nonError
deriving Repr, DecidableEq

/-- The message extraction performed at App.tsx line 107:
`e instanceof Error ? e.message : 'An unknown error occurred.'`. -/
def jsErrorMessage : JsThrown → String
  | .jsError m => m
  | .nonError => "An unknown error occurred."

/-- The argument triple of the single call
`editImageWithPrompt(base64Data, originalImage.mimeType, finalPrompt)`
(App.tsx line 104).  `imageBase64` is an `Option` because the JavaScript
expression `dataUrl.split(',')[1]` is `undefined` when the data URL
contains no comma. -/
structure GenRequest where
  imageBase64 : Option String
  mimeType : String
  prompt : String
deriving Repr, DecidableEq

/-- The component state: the six `useState` hooks of `App`
(App.tsx lines 32-39). -/
structure AppState where
  originalImage : Option ImageAsset
  editedImage : Option String
  prompt : String
  aspectRatio : String
  isLoading : Bool
  error : Option String
deriving Repr, DecidableEq

/-- The default prompt text (App.tsx lines 34-36). -/
def defaultPrompt : String :=
  "Replace the background of the image without altering the product or its packaging. Place the product centered on a wooden countertop or table, as if it is resting naturally on it. The new background should be a softly blurred warehouse or stockroom environment, with warm, realistic lighting and depth of field. Do not modify, crop, or distort the product or its packaging — keep colors, proportions, and textures exactly as in the original image. Ensure the product and packaging are sharp and in focus, while the background remains softly blurred. Maintain a professional, clean, and realistic photographic look suitable for e-commerce product display."

/-- The initial values of the six hooks (App.tsx lines 32-39):
no images, the default prompt, aspect ratio `"original"`, `isLoading`
initially `true`, no error. -/
def initState : AppState :=
  { originalImage := none
    editedImage := none
    prompt := defaultPrompt
    aspectRatio := "original"
    isLoading := true
    error := none }

/-- JavaScript `String.prototype.split(',')` restricted to the separator
actually used by the source, defined over the character list. -/
def splitCommaAux : List Char → List (List Char)
  | [] => [[]]
  | c :: cs =>
    match splitCommaAux cs with
    | [] => [[]]
    | h :: t => if c = ',' then [] :: h :: t else (c :: h) :: t

/-- `s.split(',')` on strings (App.tsx line 103). -/
def jsSplitComma (s : String) : List String :=
  (splitCommaAux s.data).map fun l => String.mk l

/-- The effective prompt built at App.tsx lines 97-100: the raw prompt
when `aspectRatio` is `"original"`, otherwise the trimmed prompt followed
by the fixed aspect-ratio clause. -/
def buildFinalPrompt (prompt aspectRatio : String) : String :=
  if aspectRatio = "original" then prompt
  else
    prompt.trim ++ " Please ensure the final image composition is suitable for a "
      ++ aspectRatio ++ " aspect ratio."

/-- Synchronous prefix of `loadInitialImage` before `await urlToDataUrl`
(App.tsx lines 52-53): clear the error, set loading. -/
def loadInitialImagePre (s : AppState) : AppState :=
  { s with error := none, isLoading := true }

/-- Continuation of `loadInitialImage` after the fetch resolves
(App.tsx lines 54-61): store the image on success, set the fixed fallback
message on failure, and clear loading in the `finally` block either way. -/
def loadCommit (s1 : AppState) (fetched : Except JsThrown ImageAsset) : AppState :=
  match fetched with
  | .ok img => { s1 with originalImage := some img, isLoading := false }
  | .error _ =>
    { s1 with
      error := some "Could not load the initial example image. Please try uploading your own."
      isLoading := false }

/-- The whole `loadInitialImage` workflow (App.tsx lines 50-62), with the
outcome of `urlToDataUrl(initialImageUrl)` passed explicitly. -/
def loadInitialImage (s : AppState) (fetched : Except JsThrown ImageAsset) : AppState :=
  loadCommit (loadInitialImagePre s) fetched

/-- Synchronous prefix of `handleImageUpload` once a file is present
(App.tsx lines 73-75): set loading, clear the error, clear the edited
image. -/
def handleImageUploadPre (s : AppState) : AppState :=
  { s with isLoading := true, error := none, editedImage := none }

/-- Continuation of `handleImageUpload` after `fileToBase64` resolves
(App.tsx lines 76-83): store the asset on success, set the read-failure
message on failure, clear loading in `finally`. -/
def uploadCommit (s1 : AppState) (readResult : Except JsThrown ImageAsset) : AppState :=
  match readResult with
  | .ok a => { s1 with originalImage := some a, isLoading := false }
  | .error _ =>
    { s1 with error := some "Failed to read the image file.", isLoading := false }

/-- The whole `handleImageUpload` workflow (App.tsx lines 69-85).
`files` is the `event.target.files` list (`event.target.files?.[0]` is its
head).  The boolean result records whether a file read was started. -/
def handleImageUpload (s : AppState) (files : List String)
    (readResult : Except JsThrown ImageAsset) : AppState × Bool :=
  match files.head? with
  | none => (s, false)
  | some _ => (uploadCommit (handleImageUploadPre s) readResult, true)

/-- Synchronous prefix of `handleGenerate` past validation
(App.tsx lines 93-95): set loading, clear the error, clear the edited
image. -/
def handleGeneratePre (s : AppState) : AppState :=
  { s with isLoading := true, error := none, editedImage := none }

/-- Continuation of `handleGenerate` after `editImageWithPrompt` resolves
(App.tsx lines 104-112): wrap the returned base64 into a PNG data URL on
success, set the prefixed error message on failure, clear loading in
`finally`. -/
def generateCommit (s1 : AppState) (genResult : Except JsThrown String) : AppState :=
  match genResult with
  | .ok newImageBase64 =>
    { s1 with
      editedImage := some ("data:image/png;base64," ++ newImageBase64)
      isLoading := false }
  | .error e =>
    { s1 with
      error := some ("Generation failed: " ++ jsErrorMessage e)
      isLoading := false }

/-- The request actually handed to `editImageWithPrompt` (App.tsx
lines 103-104): the second comma-separated segment of the stored data URL,
the stored MIME type, and the effective prompt. -/
def genRequestOf (img : ImageAsset) (prompt aspectRatio : String) : GenRequest :=
  { imageBase64 := (jsSplitComma img.dataUrl)[1]?
    mimeType := img.mimeType
    prompt := buildFinalPrompt prompt aspectRatio }

/-- The whole `handleGenerate` workflow (App.tsx lines 87-113), with the
outcome of the Generation Client call passed explicitly.  The second
component is the request sent to the Generation Client, `none` when
validation fails and no call is made. -/
def handleGenerate (s : AppState) (genResult : Except JsThrown String) :
    AppState × Option GenRequest :=
  match s.originalImage with
  | none =>
    ({ s with error := some "Please upload an image and provide a prompt." }, none)
  | some img =>
    if s.prompt = "" then
      ({ s with error := some "Please upload an image and provide a prompt." }, none)
    else
      (generateCommit (handleGeneratePre s) genResult,
        some (genRequestOf img s.prompt s.aspectRatio))

/-! ### Theorems -/

/-- `splitCommaAux` never returns the empty list. -/
theorem splitCommaAux_ne_nil (l : List Char) : splitCommaAux l ≠ [] := by
  cases l with
  | nil => simp [splitCommaAux]
  | cons c cs =>
    simp only [splitCommaAux]
    cases h : splitCommaAux cs with
    | nil => simp
    | cons a t =>
      by_cases hc : c = ',' <;> simp [hc]

/-- On a comma-free list `splitCommaAux` yields the single segment. -/
theorem splitCommaAux_no_comma (l : List Char) (h : ',' ∉ l) :
    splitCommaAux l = [l] := by
  induction l with
  | nil => rfl
  | cons c cs ih =>
    have hc : c ≠ ',' := fun hc => h (hc ▸ List.mem_cons_self c cs)
    have hcs : ',' ∉ cs := fun hm => h (List.mem_cons_of_mem c hm)
    simp only [splitCommaAux]
    rw [ih hcs]
    simp [hc]

/-- Splitting past the first comma: when `l1` is comma-free,
`splitCommaAux (l1 ++ ',' :: l2)` is `l1` followed by the split of
`l2`. -/
theorem splitCommaAux_append (l1 l2 : List Char) (h : ',' ∉ l1) :
    splitCommaAux (l1 ++ ',' :: l2) = l1 :: splitCommaAux l2 := by
  induction l1 with
  | nil =>
    simp only [List.nil_append, splitCommaAux]
    cases hq : splitCommaAux l2 with
    | nil => exact absurd hq (splitCommaAux_ne_nil l2)
    | cons a t => simp
  | cons c cs ih =>
    have hc : c ≠ ',' := fun hc => h (hc ▸ List.mem_cons_self c cs)
    have hcs : ',' ∉ cs := fun hm => h (List.mem_cons_of_mem c hm)
    rw [List.cons_append]
    simp only [splitCommaAux]
    rw [ih hcs]
    simp [hc]

/-- C1: for every application state in which the original image is absent
or the prompt string is empty, invoking the generate workflow sets the
validation error, performs no call to the Generation Client, and leaves
`isLoading` false. -/
theorem generate_validation_sets_error_no_call (s : AppState)
    (g : Except JsThrown String)
    (hv : s.originalImage = none ∨ s.prompt = "") (hl : s.isLoading = false) :
    (handleGenerate s g).1.error = some "Please upload an image and provide a prompt." ∧
    (handleGenerate s g).2 = none ∧
    (handleGenerate s g).1.isLoading = false := by
  rcases hv with h | h
  · simp [handleGenerate, h, hl]
  · cases ho : s.originalImage with
    | none => simp [handleGenerate, ho, hl]
    | some img => simp [handleGenerate, ho, h, hl]

theorem generate_validation_sets_error_no_call_witness :
    (handleGenerate
        (⟨none, none, "p", "original", false, none⟩ : AppState)
        (Except.ok "x")).1.error = some "Please upload an image and provide a prompt." ∧
    (handleGenerate
        (⟨none, none, "p", "original", false, none⟩ : AppState)
        (Except.ok "x")).2 = none ∧
    (handleGenerate
        (⟨none, none, "p", "original", false, none⟩ : AppState)
        (Except.ok "x")).1.isLoading = false :=
  generate_validation_sets_error_no_call _ _ (Or.inl rfl) rfl

/-- C2: for every user-entered prompt and selected aspect ratio, the
prompt sent to the Generation Client is the raw prompt when the ratio is
`"original"`, and the trimmed prompt followed by a single space and the
fixed aspect-ratio clause when the ratio is `"1:1"`, `"9:16"` or
`"4:5"`. -/
theorem generate_prompt_augmentation (s : AppState) (img : ImageAsset)
    (g : Except JsThrown String)
    (h1 : s.originalImage = some img) (h2 : s.prompt ≠ "") :
    ∃ req : GenRequest, (handleGenerate s g).2 = some req ∧
      (s.aspectRatio = "original" → req.prompt = s.prompt) ∧
      ((s.aspectRatio = "1:1" ∨ s.aspectRatio = "9:16" ∨ s.aspectRatio = "4:5") →
        req.prompt = s.prompt.trim ++
          " Please ensure the final image composition is suitable for a " ++
          s.aspectRatio ++ " aspect ratio.") := by
  refine ⟨genRequestOf img s.prompt s.aspectRatio, ?_, ?_, ?_⟩
  · simp [handleGenerate, h1, h2]
  · intro hr
    simp [genRequestOf, buildFinalPrompt, hr]
  · rintro (hr | hr | hr) <;> simp [genRequestOf, buildFinalPrompt, hr]

theorem generate_prompt_augmentation_witness :
    ∃ req : GenRequest,
      (handleGenerate
          (⟨some ⟨"data:image/png;base64,AAAA", "image/png"⟩, none,
            " hi ", "4:5", false, none⟩ : AppState)
          (Except.ok "x")).2 = some req ∧
      ((⟨some ⟨"data:image/png;base64,AAAA", "image/png"⟩, none,
          " hi ", "4:5", false, none⟩ : AppState).aspectRatio = "original" →
        req.prompt = (⟨some ⟨"data:image/png;base64,AAAA", "image/png"⟩, none,
          " hi ", "4:5", false, none⟩ : AppState).prompt) ∧
      (((⟨some ⟨"data:image/png;base64,AAAA", "image/png"⟩, none,
          " hi ", "4:5", false, none⟩ : AppState).aspectRatio = "1:1" ∨
        (⟨some ⟨"data:image/png;base64,AAAA", "image/png"⟩, none,
          " hi ", "4:5", false, none⟩ : AppState).aspectRatio = "9:16" ∨
        (⟨some ⟨"data:image/png;base64,AAAA", "image/png"⟩, none,
          " hi ", "4:5", false, none⟩ : AppState).aspectRatio = "4:5") →
        req.prompt = (⟨some ⟨"data:image/png;base64,AAAA", "image/png"⟩, none,
          " hi ", "4:5", false, none⟩ : AppState).prompt.trim ++
          " Please ensure the final image composition is suitable for a " ++
          (⟨some ⟨"data:image/png;base64,AAAA", "image/png"⟩, none,
            " hi ", "4:5", false, none⟩ : AppState).aspectRatio ++
          " aspect ratio.") :=
  generate_prompt_augmentation _ _ _ rfl (by decide)

/-- C3: on Generation Client success returning base64 string `b`, the
resulting EditedImage is `"data:image/png;base64,"` followed by `b`. -/
theorem generate_success_edited_image (s : AppState) (img : ImageAsset)
    (b : String)
    (h1 : s.originalImage = some img) (h2 : s.prompt ≠ "") :
    (handleGenerate s (Except.ok b)).1.editedImage =
      some ("data:image/png;base64," ++ b) := by
  simp [handleGenerate, h1, h2, generateCommit, handleGeneratePre]

theorem generate_success_edited_image_witness :
    (handleGenerate
        (⟨some ⟨"data:image/jpeg;base64,QUJD", "image/jpeg"⟩, none,
          "p", "original", false, none⟩ : AppState)
        (Except.ok "Zm9v")).1.editedImage =
      some ("data:image/png;base64," ++ "Zm9v") :=
  generate_success_edited_image _ _ "Zm9v" rfl (by decide)

/-- C4 counterexample: with stored data URL
`"data:image/png;base64," ++ "AA,BB"` the entire substring after the
first comma is `"AA,BB"`, but the payload passed to the Generation
Client is `"AA"`: `split(',')[1]` stops at the second comma. -/
theorem generate_payload_after_first_comma_cex :
    (handleGenerate
        (⟨some ⟨"data:image/png;base64," ++ "AA,BB", "image/png"⟩, none,
          "p", "original", false, none⟩ : AppState)
        (Except.ok "x")).2.map GenRequest.imageBase64 = some (some "AA") ∧
    ¬ (handleGenerate
        (⟨some ⟨"data:image/png;base64," ++ "AA,BB", "image/png"⟩, none,
          "p", "original", false, none⟩ : AppState)
        (Except.ok "x")).2.map GenRequest.imageBase64 = some (some "AA,BB") := by
  constructor <;> decide

/-- C4 (amended): the payload passed to the Generation Client is the
second comma-separated segment of the stored data URL; it equals the
entire substring after the first comma whenever that substring contains
no further comma. -/
theorem generate_payload_between_commas (s : AppState) (img : ImageAsset)
    (g : Except JsThrown String) (pre post : List Char)
    (h1 : s.originalImage = some img) (h2 : s.prompt ≠ "")
    (hsplit : img.dataUrl.data = pre ++ ',' :: post)
    (hpre : ',' ∉ pre) (hpost : ',' ∉ post) :
    (handleGenerate s g).2.map GenRequest.imageBase64 =
      some (some (String.mk post)) := by
  have hreq : (handleGenerate s g).2 =
      some (genRequestOf img s.prompt s.aspectRatio) := by
    simp [handleGenerate, h1, h2]
  rw [hreq]
  simp only [Option.map_some, genRequestOf, jsSplitComma]
  rw [hsplit, splitCommaAux_append pre post hpre,
    splitCommaAux_no_comma post hpost]
  rfl

theorem generate_payload_between_commas_witness :
    (handleGenerate
        (⟨some ⟨"data:image/jpeg;base64,QUJD", "image/jpeg"⟩, none,
          "q", "original", false, none⟩ : AppState)
        (Except.ok "x")).2.map GenRequest.imageBase64 =
      some (some (String.mk [ 'Q', 'U', 'J', 'D' ])) :=
  generate_payload_between_commas _ _ _
    (String.data "data:image/jpeg;base64") [ 'Q', 'U', 'J', 'D' ]
    rfl (by decide) (by decide) (by decide) (by decide)

/-- C8: when the Generation Client call fails with an `Error` carrying
message `m`, the stored error becomes `"Generation failed: "` followed by
`m`. -/
theorem generate_failure_error_message (s : AppState) (img : ImageAsset)
    (m : String)
    (h1 : s.originalImage = some img) (h2 : s.prompt ≠ "") :
    (handleGenerate s (Except.error (JsThrown.jsError m))).1.error =
      some ("Generation failed: " ++ m) := by
  simp [handleGenerate, h1, h2, generateCommit, handleGeneratePre, jsErrorMessage]

theorem generate_failure_error_message_witness :
    (handleGenerate
        (⟨some ⟨"data:image/png;base64,AAAA", "image/png"⟩, none,
          "p", "original", false, none⟩ : AppState)
        (Except.error (JsThrown.jsError "quota exceeded"))).1.error =
      some ("Generation failed: " ++ "quota exceeded") :=
  generate_failure_error_message _ _ "quota exceeded" rfl (by decide)

/-- C9: when generate-time validation fails, the only state change is the
error string: the result is exactly the input state with `error` set to
the validation message, so `editedImage`, `originalImage`, `prompt`,
`aspectRatio` and `isLoading` all keep their previous values. -/
theorem generate_validation_frame (s : AppState) (g : Except JsThrown String)
    (hv : s.originalImage = none ∨ s.prompt = "") :
    (handleGenerate s g).1 =
      { s with error := some "Please upload an image and provide a prompt." } := by
  rcases hv with h | h
  · simp [handleGenerate, h]
  · cases ho : s.originalImage with
    | none => simp [handleGenerate, ho]
    | some img => simp [handleGenerate, ho, h]

theorem generate_validation_frame_witness :
    (handleGenerate
        (⟨some ⟨"data:image/png;base64,AAAA", "image/png"⟩,
          some "data:image/png;base64,older", "", "9:16", false, none⟩ : AppState)
        (Except.ok "x")).1 =
      { (⟨some ⟨"data:image/png;base64,AAAA", "image/png"⟩,
          some "data:image/png;base64,older", "", "9:16", false, none⟩ : AppState) with
        error := some "Please upload an image and provide a prompt." } :=
  generate_validation_frame _ _ (Or.inr rfl)

/-- C5: the upload of a selected file and every generation attempt that
passes validation factor through a pre-state reached before the
asynchronous step, and that pre-state has EditedImage cleared to `none`,
for every subsequent outcome of the asynchronous step. -/
theorem edited_image_cleared_before_async (s t : AppState) (img : ImageAsset)
    (f : String) (fs : List String)
    (himg : t.originalImage = some img) (hp : t.prompt ≠ "") :
    (∀ r, (handleImageUpload s (f :: fs) r).1 = uploadCommit (handleImageUploadPre s) r) ∧
    (handleImageUploadPre s).editedImage = none ∧
    (∀ g, (handleGenerate t g).1 = generateCommit (handleGeneratePre t) g) ∧
    (handleGeneratePre t).editedImage = none := by
  refine ⟨fun r => rfl, rfl, fun g => ?_, rfl⟩
  simp [handleGenerate, himg, hp]

theorem edited_image_cleared_before_async_witness :
    (∀ r, (handleImageUpload
        (⟨none, some "data:image/png;base64,old", "p", "original", false, none⟩ : AppState)
        ("a.png" :: []) r).1 =
      uploadCommit (handleImageUploadPre
        (⟨none, some "data:image/png;base64,old", "p", "original", false, none⟩ : AppState)) r) ∧
    (handleImageUploadPre
        (⟨none, some "data:image/png;base64,old", "p", "original", false, none⟩ : AppState)).editedImage = none ∧
    (∀ g, (handleGenerate
        (⟨some ⟨"data:image/png;base64,AAAA", "image/png"⟩,
          some "data:image/png;base64,old", "q", "1:1", false, none⟩ : AppState) g).1 =
      generateCommit (handleGeneratePre
        (⟨some ⟨"data:image/png;base64,AAAA", "image/png"⟩,
          some "data:image/png;base64,old", "q", "1:1", false, none⟩ : AppState)) g) ∧
    (handleGeneratePre
        (⟨some ⟨"data:image/png;base64,AAAA", "image/png"⟩,
          some "data:image/png;base64,old", "q", "1:1", false, none⟩ : AppState)).editedImage = none :=
  edited_image_cleared_before_async _ _ _ "a.png" [] rfl (by decide)

/-- C6: each of the three workflows (initial load, upload of a selected
file, generate past validation) clears the error and sets `isLoading` to
`true` in its pre-state, before the first asynchronous step, and its
final state has `isLoading = false` for every outcome, success or
failure. -/
theorem workflows_loading_and_error_discipline (s u t : AppState)
    (img : ImageAsset) (f : String) (fs : List String)
    (himg : t.originalImage = some img) (hp : t.prompt ≠ "") :
    (loadInitialImagePre s).error = none ∧ (loadInitialImagePre s).isLoading = true ∧
    (handleImageUploadPre u).error = none ∧ (handleImageUploadPre u).isLoading = true ∧
    (handleGeneratePre t).error = none ∧ (handleGeneratePre t).isLoading = true ∧
    (∀ r, (loadInitialImage s r).isLoading = false) ∧
    (∀ r, (handleImageUpload u (f :: fs) r).1.isLoading = false) ∧
    (∀ g, (handleGenerate t g).1.isLoading = false) := by
  refine ⟨rfl, rfl, rfl, rfl, rfl, rfl, fun r => ?_, fun r => ?_, fun g => ?_⟩
  · cases r <;> rfl
  · cases r <;> rfl
  · have h : (handleGenerate t g).1 = generateCommit (handleGeneratePre t) g := by
      simp [handleGenerate, himg, hp]
    rw [h]
    cases g <;> rfl

theorem workflows_loading_and_error_discipline_witness :
    (loadInitialImagePre initState).error = none ∧
    (loadInitialImagePre initState).isLoading = true ∧
    (handleImageUploadPre initState).error = none ∧
    (handleImageUploadPre initState).isLoading = true ∧
    (handleGeneratePre
        (⟨some ⟨"data:image/png;base64,AAAA", "image/png"⟩, none,
          "q", "original", false, none⟩ : AppState)).error = none ∧
    (handleGeneratePre
        (⟨some ⟨"data:image/png;base64,AAAA", "image/png"⟩, none,
          "q", "original", false, none⟩ : AppState)).isLoading = true ∧
    (∀ r, (loadInitialImage initState r).isLoading = false) ∧
    (∀ r, (handleImageUpload initState ("a.png" :: []) r).1.isLoading = false) ∧
    (∀ g, (handleGenerate
        (⟨some ⟨"data:image/png;base64,AAAA", "image/png"⟩, none,
          "q", "original", false, none⟩ : AppState) g).1.isLoading = false) :=
  workflows_loading_and_error_discipline _ _ _ _ "a.png" [] rfl (by decide)

/-- C7: if the initial-load fetch fails, the workflow ends with
`isLoading = false`, the fixed fallback message directing the user to
upload their own image stored in `error`, and `originalImage` still
`none` when it was `none` before. -/
theorem initial_load_failure_state (s : AppState) (e : JsThrown)
    (h : s.originalImage = none) :
    (loadInitialImage s (Except.error e)).isLoading = false ∧
    (loadInitialImage s (Except.error e)).error =
      some "Could not load the initial example image. Please try uploading your own." ∧
    (loadInitialImage s (Except.error e)).originalImage = none := by
  refine ⟨rfl, rfl, ?_⟩
  simp [loadInitialImage, loadCommit, loadInitialImagePre, h]

theorem initial_load_failure_state_witness :
    (loadInitialImage initState (Except.error (JsThrown.jsError "network down"))).isLoading = false ∧
    (loadInitialImage initState (Except.error (JsThrown.jsError "network down"))).error =
      some "Could not load the initial example image. Please try uploading your own." ∧
    (loadInitialImage initState (Except.error (JsThrown.jsError "network down"))).originalImage = none :=
  initial_load_failure_state initState (JsThrown.jsError "network down") rfl

/-- C10: when the file-selection event carries no file, the upload
handler leaves the whole state unchanged and starts no file read. -/
theorem upload_without_file_is_noop (s : AppState)
    (r : Except JsThrown ImageAsset) :
    handleImageUpload s [] r = (s, false) :=
  rfl

end ImageChange
